import Mathlib

/-!
A shallow embedding of the builder and merge layer of the build123d
construction DSL corpus: the BuildSketch merge routine of build_sketch.py,
the generic operations of build_generic.py, and the Build3D and Build2D
prototype builders of cq3.py.  The geometry kernel is an opaque external
collaborator in the source, so kernel primitives (fuse, cut, intersect,
clean, locate, offset, hull, bounding box) appear here as fields of explicit
kernel-parameter structures, and builder state transitions are modelled as
total functions returning Except on the exception paths of the source.
Shape handles are natural number identifiers; the topological content of an
accumulated result is the record of its vertex, edge and face identifiers,
matching the Vertices, Edges and Faces queries the source performs.
-/

/-- Combination mode of the build123d builders, the Mode enum of
build_common as used by build_sketch.py and build_generic.py. -/
inductive Mode where
  | ADD
  | SUBTRACT
  | INTERSECT
  | REPLACE
  | CONSTRUCTION
  | PRIVATE
deriving DecidableEq, Repr

/-- Combination mode of the cq3.py prototype builders, the Mode enum of
cq3.py lines 120-127. -/
inductive CqMode where
  | ADDITION
  | SUBTRACTION
  | INTERSECTION
  | CONSTRUCTION
deriving DecidableEq, Repr

/-- Topological content of an opaque kernel shape handle: the identifiers of
its vertices, edges and faces, as returned by the Vertices, Edges and Faces
queries of the kernel. -/
structure Topo where
  vertices : List Nat
  edges : List Nat
  faces : List Nat
deriving DecidableEq, Repr

/-- A shape argument as classified by the builders through isinstance checks:
vertices, edges, wires carrying their edge lists, faces, solids, and
compounds carrying faces, edges, wires and solids. -/
inductive Obj where
  | vertexO (i : Nat)
  | edgeO (i : Nat)
  | wireO (edgeIds : List Nat)
  | faceO (i : Nat)
  | solidO (i : Nat)
  | compoundO (faceIds edgeIds : List Nat) (wireEdgeIds : List (List Nat)) (solidIds : List Nat)
deriving DecidableEq, Repr

/-- Face arguments of BuildSketch._add_to_context, build_sketch.py lines
117 and 120-121: the Face instances in argument order, then the faces of each
Compound argument. -/
def newFacesOf (objects : List Obj) : List Nat :=
  (objects.filterMap fun o => match o with | .faceO i => some i | _ => none) ++
  (objects.filterMap fun o => match o with | .compoundO fs _ _ _ => some fs | _ => none).flatten

/-- Edge arguments of BuildSketch._add_to_context, build_sketch.py lines
118 and 120-122. -/
def newEdgesOf (objects : List Obj) : List Nat :=
  (objects.filterMap fun o => match o with | .edgeO i => some i | _ => none) ++
  (objects.filterMap fun o => match o with | .compoundO _ es _ _ => some es | _ => none).flatten

/-- Wire arguments of BuildSketch._add_to_context, build_sketch.py lines
119 and 120-123, each wire given by its edge list. -/
def newWiresOf (objects : List Obj) : List (List Nat) :=
  (objects.filterMap fun o => match o with | .wireO es => some es | _ => none) ++
  (objects.filterMap fun o => match o with | .compoundO _ _ ws _ => some ws | _ => none).flatten

/-- Vertices of an optional accumulated result, the empty set when the result
is still None, as in the pre and post snapshots of the merge routines. -/
def verticesOf : Option Topo → List Nat
  | none => []
  | some t => t.vertices

/-- Edges of an optional accumulated result, empty when None. -/
def edgesOf : Option Topo → List Nat
  | none => []
  | some t => t.edges

/-- Faces of an optional accumulated result, empty when None. -/
def facesOf : Option Topo → List Nat
  | none => []
  | some t => t.faces

/-- The Python expression list(set(post) - set(pre)) modelled as the elements
of post that are not in pre; delta claims compare it through toFinset. -/
def listDiff (post pre : List Nat) : List Nat :=
  post.filter fun x => decide (x ∉ pre)

/-- Kernel primitives consumed by the BuildSketch merge: compound construction
and the 2D boolean operations with cleanup, all opaque. -/
structure SketchKernel where
  makeCompound : List Nat → Topo
  fuse : Topo → List Nat → Topo
  cut : Topo → List Nat → Topo
  intersectK : Topo → List Nat → Topo
  clean : Topo → Topo

/-- State of a BuildSketch builder: the accumulated sketch (None until the
first face merge), the pending edges, and the last-operation delta lists.
The base Builder class initializes the delta lists; they start empty. -/
structure SketchState where
  sketch : Option Topo
  pending_edges : List Nat
  last_vertices : List Nat
  last_edges : List Nat
  last_faces : List Nat
deriving DecidableEq, Repr

/-- A freshly constructed BuildSketch. -/
def emptySketchState : SketchState := ⟨none, [], [], [], []⟩

/-- The face merge of BuildSketch._add_to_context, build_sketch.py lines
128-148: nothing happens to the sketch without new faces; ADD makes a fresh
compound or fuses and cleans, SUBTRACT and INTERSECT raise on a missing
sketch and otherwise cut or intersect and clean, REPLACE builds a cleaned
compound of the new faces alone, and every other mode leaves the sketch
untouched. -/
def BuildSketch.mergeStep (K : SketchKernel) (new_faces : List Nat) (mode : Mode)
    (sketch : Option Topo) : Except String (Option Topo) :=
  if new_faces = [] then Except.ok sketch
  else
    match mode, sketch with
    | Mode.ADD, none => Except.ok (some (K.makeCompound new_faces))
    | Mode.ADD, some s => Except.ok (some (K.clean (K.fuse s new_faces)))
    | Mode.SUBTRACT, none => Except.error "No sketch to subtract from"
    | Mode.SUBTRACT, some s => Except.ok (some (K.clean (K.cut s new_faces)))
    | Mode.INTERSECT, none => Except.error "No sketch to intersect with"
    | Mode.INTERSECT, some s => Except.ok (some (K.clean (K.intersectK s new_faces)))
    | Mode.REPLACE, _ => Except.ok (some (K.clean (K.makeCompound new_faces)))
    | _, _ => Except.ok sketch

/-- BuildSketch._add_to_context, build_sketch.py lines 94-167: unless the mode
is PRIVATE, classify the arguments, merge the faces into the sketch under the
given mode, record the before and after snapshot difference in the delta
lists, and append the edges and the wire edges to the pending list. -/
def BuildSketch.addToContext (K : SketchKernel) (objects : List Obj) (mode : Mode)
    (st : SketchState) : Except String SketchState :=
  if mode = Mode.PRIVATE then Except.ok st else
  match BuildSketch.mergeStep K (newFacesOf objects) mode st.sketch with
  | Except.error e => Except.error e
  | Except.ok sk =>
      Except.ok
        { sketch := sk
          pending_edges := st.pending_edges ++ newEdgesOf objects ++ (newWiresOf objects).flatten
          last_vertices := listDiff (verticesOf sk) (verticesOf st.sketch)
          last_edges := listDiff (edgesOf sk) (edgesOf st.sketch)
          last_faces := listDiff (facesOf sk) (facesOf st.sketch) }

/-- Kernel primitives consumed by the Build3D merge of cq3.py: the 3D
booleans and cleanup, all opaque. -/
structure SolidKernel where
  fuseS : Topo → List Topo → Topo
  cutS : Topo → List Topo → Topo
  intersectS : Topo → List Topo → Topo
  cleanS : Topo → Topo

/-- State of a cq3.py Build3D builder: the working solid (None until the
first placement) and the last_operation entries for vertices, edges and
faces. -/
structure Build3DState where
  working_solid : Option Topo
  lastVertices : List Nat
  lastEdges : List Nat
  lastFaces : List Nat
deriving DecidableEq, Repr

/-- A freshly constructed Build3D. -/
def emptyBuild3DState : Build3DState := ⟨none, [], [], []⟩

/-- The solid merge chain of Build3D.place_solids, cq3.py lines 375-390:
ADDITION installs a single solid directly (popping from an empty list fails)
or pops the last solid and fuses the rest into it, SUBTRACTION and
INTERSECTION raise when there is nothing to operate on and otherwise cut or
intersect (cleaning only when the clean flag is set), and CONSTRUCTION has
no branch at all, changing nothing. -/
def Build3D.mergeStep (K : SolidKernel) (new_solids : List Topo) (mode : CqMode)
    (clean : Bool) (working : Option Topo) : Except String (Option Topo) :=
  match mode, working with
  | CqMode.ADDITION, none =>
      match new_solids with
      | [] => Except.error "IndexError: pop from empty list"
      | [s] => Except.ok (some s)
      | _ =>
          match new_solids.getLast? with
          | some last => Except.ok (some (K.fuseS last new_solids.dropLast))
          | none => Except.error "IndexError: pop from empty list"
  | CqMode.ADDITION, some s =>
      Except.ok (some ((if clean then K.cleanS else id) (K.fuseS s new_solids)))
  | CqMode.SUBTRACTION, none => Except.error "Nothing to subtract from"
  | CqMode.SUBTRACTION, some s =>
      Except.ok (some ((if clean then K.cleanS else id) (K.cutS s new_solids)))
  | CqMode.INTERSECTION, none => Except.error "Nothing to intersect with"
  | CqMode.INTERSECTION, some s =>
      Except.ok (some ((if clean then K.cleanS else id) (K.intersectS s new_solids)))
  | CqMode.CONSTRUCTION, w => Except.ok w

/-- Continuation of Build3D.place_solids: the final last_operation updates,
which query the working solid unconditionally and so fail on None. -/
def Build3D.placeSolids (K : SolidKernel) (new_solids : List Topo) (mode : CqMode)
    (clean : Bool) (st : Build3DState) : Except String Build3DState :=
  match Build3D.mergeStep K new_solids mode clean st.working_solid with
  | Except.error e => Except.error e
  | Except.ok none => Except.error "AttributeError: NoneType object has no attribute Vertices"
  | Except.ok (some sol) =>
      Except.ok
        { working_solid := some sol
          lastVertices := listDiff sol.vertices (verticesOf st.working_solid)
          lastEdges := listDiff sol.edges (edgesOf st.working_solid)
          lastFaces := listDiff sol.faces (facesOf st.working_solid) }

/-- Kernel primitives consumed by the Build2D surface merge of cq3.py. -/
structure Kernel2 where
  located : Nat → Nat → Nat
  fuse2 : Topo → List Nat → Topo
  cut2 : Topo → List Nat → Topo
  intersect2 : Topo → List Nat → Topo
  clean2 : Topo → Topo

/-- State of a cq3.py Build2D builder: the working surface (an empty compound
initially), the pending edges, and the staged locations. -/
structure Build2DState where
  working_surface : Topo
  pending_edges : List Nat
  locations : List Nat
deriving DecidableEq, Repr

/-- The identity placement Location(Vector()), given the fixed handle 0. -/
def identityLoc : Nat := 0

/-- Build2D.place_face, cq3.py lines 558-576: default an empty location list
to the identity, locate the face at every staged location, combine the
located faces into the working surface under the mode (CONSTRUCTION changes
nothing), clear the locations, and return the located faces. -/
def Build2D.placeFace (K : Kernel2) (face : Nat) (mode : CqMode) (st : Build2DState) :
    Build2DState × List Nat :=
  let locs := if st.locations.isEmpty then [identityLoc] else st.locations
  let new_faces := locs.map (K.located face)
  let surface :=
    match mode with
    | CqMode.ADDITION => K.clean2 (K.fuse2 st.working_surface new_faces)
    | CqMode.SUBTRACTION => K.clean2 (K.cut2 st.working_surface new_faces)
    | CqMode.INTERSECTION => K.clean2 (K.intersect2 st.working_surface new_faces)
    | CqMode.CONSTRUCTION => st.working_surface
  ({ working_surface := surface, pending_edges := st.pending_edges, locations := [] }, new_faces)

/-- Location broadcast primitives: moving a face or a whole object to a
location, and the fixed-angle rotation applied by Add before broadcasting. -/
structure LocKernel where
  movedFace : Nat → Nat → Nat
  movedObj : Obj → Nat → Obj
  rotObj : Obj → Obj

/-- The face list built by Circle, build_sketch.py lines 268-270: the one
candidate face moved to every location of the active location list. -/
def Circle.newFaces (LK : LocKernel) (baseFace : Nat) (locations : List Nat) : List Nat :=
  locations.map (LK.movedFace baseFace)

/-- Circle under a BuildSketch context, build_sketch.py lines 248-273: each
located face is merged through its own _add_to_context call. -/
def Circle.run (K : SketchKernel) (LK : LocKernel) (baseFace : Nat) (locations : List Nat)
    (mode : Mode) (st : SketchState) : Except String SketchState :=
  (Circle.newFaces LK baseFace locations).foldlM
    (fun s f => BuildSketch.addToContext K [Obj.faceO f] mode s) st

/-- The object list built by the BuildSketch branch of Add, build_generic.py
lines 126-137: every argument rotated and then moved to every location of the
active location list. -/
def Add.newObjectsSketch (LK : LocKernel) (objects : List Obj) (locations : List Nat) : List Obj :=
  objects.flatMap fun o => locations.map (LK.movedObj (LK.rotObj o))

/-- The context default object used by Mirror, Offset, Scale and Split: the
accumulated sketch compound.  A still missing sketch stands for the Python
None value, which every later isinstance classification rejects, so it is
modelled as an empty compound. -/
def sketchObj : Option Topo → Obj
  | none => Obj.compoundO [] [] [] []
  | some t => Obj.compoundO t.faces t.edges [] []

/-- The shared defaulting line of Mirror, Offset, Scale and Split in
build_generic.py: an empty explicit argument list is replaced by the single
context result object. -/
def objectsUsed (objects : List Obj) (sketch : Option Topo) : List Obj :=
  if objects.isEmpty then [sketchObj sketch] else objects

/-- Kernel primitives consumed by Offset: the 2D offset of the outer wire of
a face, the 2D offset of a wire assembled from edges (returning the offset
wires as edge lists), and the shelling of a solid.  The amount, kind and
openings parameters are folded into the fields. -/
structure OffsetKernel where
  offsetFace : Nat → Nat
  offsetWires : List Nat → List (List Nat)
  shellSolid : Nat → Nat

/-- Edge classification of Offset, build_generic.py lines 388-398: per
argument in order, the edges of a Compound or a single Edge. -/
def Offset.classifyEdges (objects : List Obj) : List Nat :=
  objects.flatMap fun o =>
    match o with
    | .compoundO _ es _ _ => es
    | .edgeO e => [e]
    | _ => []

/-- Face classification of Offset, build_generic.py lines 388-398. -/
def Offset.classifyFaces (objects : List Obj) : List Nat :=
  objects.flatMap fun o =>
    match o with
    | .compoundO fs _ _ _ => fs
    | .faceO f => [f]
    | _ => []

/-- Solid classification of Offset, build_generic.py lines 388-398. -/
def Offset.classifySolids (objects : List Obj) : List Nat :=
  objects.flatMap fun o =>
    match o with
    | .compoundO _ _ _ ss => ss
    | .solidO s => [s]
    | _ => []

/-- Offset under a BuildSketch context, build_generic.py lines 363-433:
default the argument list to the context object, classify into edges, faces
and solids, offset each face, reject exactly one classified edge before any
builder mutation, offset the wire assembled from two or more edges, shell
the solids, and merge the offset wires, faces and solids. -/
def Offset.run (K : SketchKernel) (OK : OffsetKernel) (objects : List Obj)
    (mode : Mode) (st : SketchState) : Except String SketchState :=
  let objs := objectsUsed objects st.sketch
  let edges := Offset.classifyEdges objs
  let faces := Offset.classifyFaces objs
  let solids := Offset.classifySolids objs
  let new_faces := faces.map OK.offsetFace
  if edges.length = 1 then Except.error "At least two edges are required"
  else
    let new_wires := if edges.isEmpty then [] else OK.offsetWires edges
    let new_solids := solids.map OK.shellSolid
    let new_objects := new_wires.map Obj.wireO ++ new_faces.map Obj.faceO ++
      new_solids.map Obj.solidO
    BuildSketch.addToContext K new_objects mode st

/-- The plane reflection applied per object by Mirror: localize to the plane,
negate the out-of-plane axis, delocalize, folded into one opaque field. -/
structure MirrorKernel where
  mirrorObj : Obj → Obj

/-- Mirror under a BuildSketch context, build_generic.py lines 307-338:
default the argument list to the context object, mirror every object through
the plane, and merge the mirrored objects. -/
def Mirror.run (K : SketchKernel) (MK : MirrorKernel) (objects : List Obj)
    (mode : Mode) (st : SketchState) : Except String SketchState :=
  BuildSketch.addToContext K ((objectsUsed objects st.sketch).map MK.mirrorObj) mode st

/-- The scaling transform applied per object by Scale: relocate to the
origin, transform by the scale matrix, relocate back, folded into one opaque
field. -/
structure ScaleKernel where
  scaleObj : Obj → Obj

/-- Scale under a BuildSketch context, build_generic.py lines 449-495:
default the argument list to the context object, scale every object, and
merge the scaled objects. -/
def Scale.run (K : SketchKernel) (SCK : ScaleKernel) (objects : List Obj)
    (mode : Mode) (st : SketchState) : Except String SketchState :=
  BuildSketch.addToContext K ((objectsUsed objects st.sketch).map SCK.scaleObj) mode st

/-- The Keep enum selecting which side of the bisecting plane Split keeps. -/
inductive Keep where
  | TOP
  | BOTTOM
  | BOTH
deriving DecidableEq, Repr

/-- Kernel primitives consumed by Split: the bounding box diagonal of an
object, box construction, placement, mapping out of the bisect plane local
frame, and intersection of an object with a list of cutters. -/
structure SplitKernel where
  diag : Obj → Int
  makeBox : Int → Int → Int → Obj
  movedTo : Obj → Int × Int × Int → Obj
  fromLocal : Obj → Obj
  intersectObj : Obj → List Obj → Obj

/-- Split.build_cutter, build_generic.py lines 519-529: an oversized box of
side two times max_size, moved to the center chosen for the kept side, then
mapped out of the bisect plane local frame. -/
def Split.buildCutter (SK : SplitKernel) (keep : Keep) (maxSize : Int) : Obj :=
  let center : Int × Int × Int :=
    if keep = Keep.TOP then (-maxSize, -maxSize, 0)
    else (-maxSize, -maxSize, -2 * maxSize)
  SK.fromLocal (SK.movedTo (SK.makeBox (2 * maxSize) (2 * maxSize) (2 * maxSize)) center)

/-- The object list built by the Split loop, build_generic.py lines 547-557:
per input object, one intersection of the object with its cutter list (two
cutters when keeping BOTH, one otherwise). -/
def Split.newObjects (SK : SplitKernel) (objects : List Obj) (keep : Keep) : List Obj :=
  objects.map fun o =>
    let maxSize := SK.diag o
    let cutters :=
      if keep = Keep.BOTH then
        [Split.buildCutter SK Keep.TOP maxSize, Split.buildCutter SK Keep.BOTTOM maxSize]
      else [Split.buildCutter SK keep maxSize]
    SK.intersectObj o cutters

/-- Split under a BuildSketch context, build_generic.py lines 512-560:
default the argument list to the context object, bisect every object, and
merge the results. -/
def Split.run (K : SketchKernel) (SK : SplitKernel) (objects : List Obj) (keep : Keep)
    (mode : Mode) (st : SketchState) : Except String SketchState :=
  BuildSketch.addToContext K (Split.newObjects SK (objectsUsed objects st.sketch) keep) mode st

/-- The axis-aligned bounding rectangle face of an object, opaque. -/
structure BBoxKernel where
  bboxFace : Obj → Nat

/-- Vertex test of the BoundingBox skip, build_generic.py lines 192-193. -/
def Obj.isVertex : Obj → Bool
  | .vertexO _ => true
  | _ => false

/-- BoundingBox under a BuildSketch context, build_generic.py lines 189-207:
skip vertex arguments, build one axis-aligned rectangle face per remaining
argument, and merge each face through its own _add_to_context call.  There
is no defaulting of an empty argument list. -/
def BoundingBox.runSketch (K : SketchKernel) (BK : BBoxKernel) (objects : List Obj)
    (mode : Mode) (st : SketchState) : Except String SketchState :=
  ((objects.filter fun o => ! o.isVertex).map BK.bboxFace).foldlM
    (fun s f => BuildSketch.addToContext K [Obj.faceO f] mode s) st

/-- Kernel primitives consumed by BuildFace and BuildHull: combining edges
into wires, building a face from a wire, and the convex hull of edges. -/
structure WireKernel where
  combine : List Nat → List (List Nat)
  faceFromWire : List Nat → Nat
  hull : List Nat → List Nat

/-- BuildFace, build_sketch.py lines 194-205: build a face from the explicit
edges, or from the staged pending edges when none are given, merge it, and
then unconditionally clear the pending edge list. -/
def BuildFace.run (K : SketchKernel) (WK : WireKernel) (edges : List Nat) (mode : Mode)
    (st : SketchState) : Except String SketchState :=
  let outer_edges := if edges.isEmpty then st.pending_edges else edges
  match (WK.combine outer_edges).head? with
  | none => Except.error "IndexError: list index out of range"
  | some w =>
      match BuildSketch.addToContext K [Obj.faceO (WK.faceFromWire w)] mode st with
      | Except.error e => Except.error e
      | Except.ok st2 => Except.ok { st2 with pending_edges := [] }

/-- BuildHull, build_sketch.py lines 218-229: build a face from the hull of
the explicit edges, or of the staged pending edges when none are given,
merge it, and then unconditionally clear the pending edge list. -/
def BuildHull.run (K : SketchKernel) (WK : WireKernel) (edges : List Nat) (mode : Mode)
    (st : SketchState) : Except String SketchState :=
  let hull_edges := if edges.isEmpty then st.pending_edges else edges
  match BuildSketch.addToContext K [Obj.faceO (WK.faceFromWire (WK.hull hull_edges))] mode st with
  | Except.error e => Except.error e
  | Except.ok st2 => Except.ok { st2 with pending_edges := [] }

/-- Default of the mode parameter of Add, build_generic.py line 90. -/
def Add.defaultMode : Option Mode := some Mode.ADD

/-- Default of the mode parameter of BoundingBox, build_generic.py line 166. -/
def BoundingBox.defaultMode : Option Mode := some Mode.ADD

/-- Chamfer takes no mode parameter, build_generic.py lines 228-229. -/
def Chamfer.defaultMode : Option Mode := none

/-- Fillet takes no mode parameter, build_generic.py line 268. -/
def Fillet.defaultMode : Option Mode := none

/-- Default of the mode parameter of Mirror, build_generic.py line 311. -/
def Mirror.defaultMode : Option Mode := some Mode.ADD

/-- Default of the mode parameter of Offset, build_generic.py line 369. -/
def Offset.defaultMode : Option Mode := some Mode.REPLACE

/-- Default of the mode parameter of Scale, build_generic.py line 453. -/
def Scale.defaultMode : Option Mode := some Mode.REPLACE

/-- Default of the mode parameter of Split, build_generic.py line 517. -/
def Split.defaultMode : Option Mode := some Mode.REPLACE

/-- Default of the mode parameter of Circle, build_sketch.py line 252. -/
def Circle.defaultMode : Option Mode := some Mode.ADD

/-- Default of the mode parameter of Ellipse, build_sketch.py line 295. -/
def Ellipse.defaultMode : Option Mode := some Mode.ADD

/-- Default of the mode parameter of Polygon, build_sketch.py line 350. -/
def Polygon.defaultMode : Option Mode := some Mode.ADD

/-- Default of the mode parameter of Rectangle, build_sketch.py line 397. -/
def Rectangle.defaultMode : Option Mode := some Mode.ADD

/-- Default of the mode parameter of RegularPolygon, build_sketch.py line 445. -/
def RegularPolygon.defaultMode : Option Mode := some Mode.ADD

/-- Default of the mode parameter of SlotArc, build_sketch.py line 498. -/
def SlotArc.defaultMode : Option Mode := some Mode.ADD

/-- Default of the mode parameter of SlotCenterPoint, build_sketch.py line 541. -/
def SlotCenterPoint.defaultMode : Option Mode := some Mode.ADD

/-- Default of the mode parameter of SlotCenterToCenter, build_sketch.py line 590. -/
def SlotCenterToCenter.defaultMode : Option Mode := some Mode.ADD

/-- Default of the mode parameter of SlotOverall, build_sketch.py line 633. -/
def SlotOverall.defaultMode : Option Mode := some Mode.ADD

/-- Default of the mode parameter of Text, build_sketch.py line 691. -/
def SketchText.defaultMode : Option Mode := some Mode.ADD

/-- Default of the mode parameter of Trapezoid, build_sketch.py line 757. -/
def Trapezoid.defaultMode : Option Mode := some Mode.ADD

/-- Default of the mode parameter of BuildFace, build_sketch.py line 194. -/
def BuildFace.defaultMode : Option Mode := some Mode.ADD

/-- Default of the mode parameter of BuildHull, build_sketch.py line 218. -/
def BuildHull.defaultMode : Option Mode := some Mode.ADD

/-- A concrete sketch kernel for counterexamples and witnesses: a compound
lists exactly its faces, fusion appends the new faces, cut and intersect
keep the target unchanged, and cleanup is the identity. -/
def Kc : SketchKernel where
  makeCompound := fun fs => ⟨[], [], fs⟩
  fuse := fun s fs => ⟨s.vertices, s.edges, s.faces ++ fs⟩
  cut := fun s _ => s
  intersectK := fun s _ => s
  clean := fun s => s

/-- A concrete solid kernel for counterexamples and witnesses. -/
def K3c : SolidKernel where
  fuseS := fun s _ => s
  cutS := fun s _ => s
  intersectS := fun s _ => s
  cleanS := fun s => s

/-- A concrete wire kernel: all edges combine into one wire, every built face
gets handle 7, and the hull keeps the edges. -/
def WKc : WireKernel where
  combine := fun es => [es]
  faceFromWire := fun _ => 7
  hull := fun es => es

/-- A concrete offset kernel shifting handles by 50. -/
def OKc : OffsetKernel where
  offsetFace := fun f => f + 50
  offsetWires := fun es => [es.map (fun e => e + 50)]
  shellSolid := fun s => s + 50

/-- A concrete bounding box kernel: every box face gets handle 100. -/
def BKc : BBoxKernel where
  bboxFace := fun _ => 100

/-- A concrete split kernel whose intersection keeps the object. -/
def SKc : SplitKernel where
  diag := fun _ => 1
  makeBox := fun _ _ _ => Obj.solidO 40
  movedTo := fun o _ => o
  fromLocal := fun o => o
  intersectObj := fun o _ => o

/-- A sketch state whose first ADD merge of face 5 has just happened: the
delta face list still records face 5. -/
def st1c : SketchState := ⟨some ⟨[], [], [5]⟩, [], [], [], [5]⟩

/-- A nonempty sketch state carrying face 5 with empty delta lists. -/
def st3pre : SketchState := ⟨some ⟨[], [], [5]⟩, [], [], [], []⟩

/-- The state after a REPLACE merge of face 8 into st3pre. -/
def c3post2 : SketchState := ⟨some ⟨[], [], [8]⟩, [], [], [], [8]⟩

/-- A nonempty sketch state carrying face 0 with empty delta lists. -/
def st5c : SketchState := ⟨some ⟨[], [], [0]⟩, [], [], [], []⟩

/-- The state after an edge-only SUBTRACT merge into a fresh sketch: still
empty, the edge staged as pending. -/
def c1post : SketchState := ⟨none, [0], [], [], []⟩

/-- A fresh sketch state with one staged pending edge, handle 9. -/
def st10 : SketchState := ⟨none, [9], [], [], []⟩

/-- The state after BuildFace or BuildHull on explicit edges 0 and 1 under
st10: face 7 merged, the staged pending edge discarded. -/
def sb10 : SketchState := ⟨some ⟨[], [], [7]⟩, [], [], [], [7]⟩

/-- The Build3D state after placing one solid into a fresh builder. -/
def b3post : Build3DState := ⟨some ⟨[1], [2], [3]⟩, [1], [2], [3]⟩

/-- Add under a BuildSketch context, build_generic.py lines 126-138: the
rotated and location-broadcast arguments are merged in one _add_to_context
call.  There is no defaulting of an empty argument list. -/
def Add.runSketch (K : SketchKernel) (LK : LocKernel) (objects : List Obj)
    (locations : List Nat) (mode : Mode) (st : SketchState) : Except String SketchState :=
  BuildSketch.addToContext K (Add.newObjectsSketch LK objects locations) mode st

/-- Kernel primitives consumed by the Sketch branches of Fillet and Chamfer:
the vertices of a face and the 2D fillet and chamfer of a face at a vertex
selection, with radius and lengths folded into the fields. -/
structure FilletKernel where
  faceVertices : Nat → List Nat
  fillet2D : Nat → List Nat → Nat
  chamfer2D : Nat → List Nat → Nat

/-- The face list built by the Sketch branch of Fillet, build_generic.py
lines 277-284: each face of the sketch is filleted at the vertices of the
selection that lie on it, and passes through unchanged when the selection
meets none of its vertices. -/
def Fillet.newFacesSketch (FK : FilletKernel) (objects : List Nat) (faces : List Nat) :
    List Nat :=
  faces.map fun face =>
    let vertices_in_face := (FK.faceVertices face).filter fun v => decide (v ∈ objects)
    if vertices_in_face = [] then face else FK.fillet2D face vertices_in_face

/-- The face list built by the Sketch branch of Chamfer, build_generic.py
lines 239-246, the chamfer analogue of the Fillet loop. -/
def Chamfer.newFacesSketch (FK : FilletKernel) (objects : List Nat) (faces : List Nat) :
    List Nat :=
  faces.map fun face =>
    let vertices_in_face := (FK.faceVertices face).filter fun v => decide (v ∈ objects)
    if vertices_in_face = [] then face else FK.chamfer2D face vertices_in_face

/-- Fillet under a BuildSketch context, build_generic.py lines 277-287: the
per-face filleted faces are wrapped in a compound and merged with REPLACE. -/
def Fillet.runSketch (K : SketchKernel) (FK : FilletKernel) (objects : List Nat)
    (st : SketchState) : Except String SketchState :=
  BuildSketch.addToContext K
    [Obj.compoundO (Fillet.newFacesSketch FK objects (facesOf st.sketch)) [] [] []]
    Mode.REPLACE st

/-- Chamfer under a BuildSketch context, build_generic.py lines 239-249: the
per-face chamfered faces are wrapped in a compound and merged with REPLACE. -/
def Chamfer.runSketch (K : SketchKernel) (FK : FilletKernel) (objects : List Nat)
    (st : SketchState) : Except String SketchState :=
  BuildSketch.addToContext K
    [Obj.compoundO (Chamfer.newFacesSketch FK objects (facesOf st.sketch)) [] [] []]
    Mode.REPLACE st

/-- A concrete fillet and chamfer kernel: every face has the single vertex
11, filleting shifts the face handle by 60 and chamfering by 70. -/
def FKc : FilletKernel where
  faceVertices := fun _ => [11]
  fillet2D := fun f _ => f + 60
  chamfer2D := fun f _ => f + 70

deriving instance DecidableEq for Except

/-- The modelled Python set difference agrees with the Finset difference. -/
theorem listDiff_toFinset (post pre : List Nat) :
    (listDiff post pre).toFinset = post.toFinset \ pre.toFinset := by
  ext a
  simp [listDiff]

/-- Differencing a list against itself leaves nothing. -/
theorem listDiff_self (l : List Nat) : listDiff l l = [] := by
  simp [listDiff, List.filter_eq_nil_iff]

/-- Claim C1, counterexample: a SUBTRACT merge of a lone edge into an empty
Sketch builder does not fail at all; the edge bypasses the boolean step, is
staged as pending, and the result stays empty, against the claim that every
SUBTRACT merge into an empty builder fails. -/
theorem c1_edge_only_counterexample :
    BuildSketch.addToContext Kc [Obj.edgeO 0] Mode.SUBTRACT emptySketchState =
      Except.ok c1post ∧ c1post.sketch = none := by
  exact ⟨rfl, rfl⟩

/-- Claim C1, amended: a SUBTRACT or INTERSECT merge into an empty builder
fails with the empty target error whenever it reaches the boolean step: in
the Sketch variant whenever the classified arguments contain at least one
face, and in the Part variant place_solids unconditionally.  The exception
is raised before any assignment, so the accumulated result stays empty. -/
theorem c1_empty_target_amended :
    (∀ (K : SketchKernel) (objects : List Obj) (st : SketchState),
      st.sketch = none → newFacesOf objects ≠ [] →
      BuildSketch.addToContext K objects Mode.SUBTRACT st =
        Except.error "No sketch to subtract from" ∧
      BuildSketch.addToContext K objects Mode.INTERSECT st =
        Except.error "No sketch to intersect with") ∧
    (∀ (K3 : SolidKernel) (new_solids : List Topo) (clean : Bool) (st : Build3DState),
      st.working_solid = none →
      Build3D.placeSolids K3 new_solids CqMode.SUBTRACTION clean st =
        Except.error "Nothing to subtract from" ∧
      Build3D.placeSolids K3 new_solids CqMode.INTERSECTION clean st =
        Except.error "Nothing to intersect with") := by
  constructor
  · intro K objects st hnone hfaces
    constructor <;>
      simp [BuildSketch.addToContext, BuildSketch.mergeStep, hnone, hfaces]
  · intro K3 ns clean st hnone
    constructor <;>
      simp [Build3D.placeSolids, Build3D.mergeStep, hnone]

/-- Claim C1, witness for the amended statement at concrete inputs. -/
theorem c1_empty_target_witness :
    BuildSketch.addToContext Kc [Obj.faceO 5] Mode.SUBTRACT emptySketchState =
      Except.error "No sketch to subtract from" ∧
    Build3D.placeSolids K3c [] CqMode.SUBTRACTION true emptyBuild3DState =
      Except.error "Nothing to subtract from" :=
  ⟨(c1_empty_target_amended.1 Kc [Obj.faceO 5] emptySketchState rfl (by decide)).1,
   (c1_empty_target_amended.2 K3c [] true emptyBuild3DState rfl).1⟩

/-- Claim C2, counterexample: a PRIVATE merge skips the snapshot and delta
update entirely, so after a PRIVATE merge into st1c the recorded delta still
holds face 5 while the actual before and after set difference is empty. -/
theorem c2_private_delta_counterexample :
    BuildSketch.addToContext Kc [Obj.faceO 5] Mode.ADD emptySketchState = Except.ok st1c ∧
    BuildSketch.addToContext Kc [Obj.faceO 6] Mode.PRIVATE st1c = Except.ok st1c ∧
    st1c.last_faces.toFinset ≠
      (facesOf st1c.sketch).toFinset \ (facesOf st1c.sketch).toFinset := by
  refine ⟨rfl, rfl, by decide⟩

/-- Claim C2, amended: for every merge with a mode other than PRIVATE into
the Sketch builder, and for every completed merge of the Part builder, the
last-operation delta equals the set difference of the topological entities
after and before the merge, with the empty set as the pre snapshot when the
result was empty. -/
theorem c2_delta_amended :
    (∀ (K : SketchKernel) (objects : List Obj) (mode : Mode) (st st2 : SketchState),
      mode ≠ Mode.PRIVATE →
      BuildSketch.addToContext K objects mode st = Except.ok st2 →
      st2.last_vertices.toFinset =
        (verticesOf st2.sketch).toFinset \ (verticesOf st.sketch).toFinset ∧
      st2.last_edges.toFinset =
        (edgesOf st2.sketch).toFinset \ (edgesOf st.sketch).toFinset ∧
      st2.last_faces.toFinset =
        (facesOf st2.sketch).toFinset \ (facesOf st.sketch).toFinset) ∧
    (∀ (K3 : SolidKernel) (new_solids : List Topo) (mode : CqMode) (clean : Bool)
      (st st2 : Build3DState),
      Build3D.placeSolids K3 new_solids mode clean st = Except.ok st2 →
      st2.lastVertices.toFinset =
        (verticesOf st2.working_solid).toFinset \ (verticesOf st.working_solid).toFinset ∧
      st2.lastEdges.toFinset =
        (edgesOf st2.working_solid).toFinset \ (edgesOf st.working_solid).toFinset ∧
      st2.lastFaces.toFinset =
        (facesOf st2.working_solid).toFinset \ (facesOf st.working_solid).toFinset) := by
  constructor
  · intro K objects mode st st2 h1 h2
    unfold BuildSketch.addToContext at h2
    rw [if_neg h1] at h2
    split at h2
    · exact absurd h2 (by simp)
    · injection h2 with h3
      subst h3
      exact ⟨listDiff_toFinset _ _, listDiff_toFinset _ _, listDiff_toFinset _ _⟩
  · intro K3 ns mode clean st st2 h2
    unfold Build3D.placeSolids at h2
    split at h2
    · exact absurd h2 (by simp)
    · exact absurd h2 (by simp)
    · injection h2 with h3
      subst h3
      exact ⟨listDiff_toFinset _ _, listDiff_toFinset _ _, listDiff_toFinset _ _⟩

/-- Claim C2, witness for the amended statement at concrete inputs. -/
theorem c2_delta_witness :
    st1c.last_faces.toFinset =
      (facesOf st1c.sketch).toFinset \ (facesOf emptySketchState.sketch).toFinset ∧
    b3post.lastFaces.toFinset =
      (facesOf b3post.working_solid).toFinset \
        (facesOf emptyBuild3DState.working_solid).toFinset :=
  ⟨(c2_delta_amended.1 Kc [Obj.faceO 5] Mode.ADD emptySketchState st1c
      (by decide) rfl).2.2,
   (c2_delta_amended.2 K3c [⟨[1], [2], [3]⟩] CqMode.ADDITION true
      emptyBuild3DState b3post rfl).2.2⟩

/-- Claim C3, counterexample: a REPLACE merge whose classified arguments
contain no face leaves a nonempty sketch exactly as it was, against the
claim that it empties the builder. -/
theorem c3_replace_empty_counterexample :
    BuildSketch.addToContext Kc [] Mode.REPLACE st3pre = Except.ok st3pre ∧
    st3pre.sketch ≠ none := by
  refine ⟨rfl, by decide⟩

/-- Claim C3, amended: a REPLACE merge with at least one new face sets the
result to the cleaned compound of the new faces alone, discarding any prior
result; a REPLACE merge with no new faces leaves the result unchanged (a
nonempty builder stays nonempty). -/
theorem c3_replace_amended :
    ∀ (K : SketchKernel) (objects : List Obj) (st st2 : SketchState),
      BuildSketch.addToContext K objects Mode.REPLACE st = Except.ok st2 →
      (newFacesOf objects = [] → st2.sketch = st.sketch) ∧
      (newFacesOf objects ≠ [] →
        st2.sketch = some (K.clean (K.makeCompound (newFacesOf objects)))) := by
  intro K objects st st2 h2
  unfold BuildSketch.addToContext at h2
  rw [if_neg (by decide)] at h2
  constructor
  · intro h0
    rw [BuildSketch.mergeStep, if_pos h0] at h2
    injection h2 with h3
    subst h3
    rfl
  · intro h0
    rw [BuildSketch.mergeStep, if_neg h0] at h2
    cases hsk : st.sketch <;> rw [hsk] at h2 <;>
      (injection h2 with h3; subst h3; rfl)

/-- Claim C3, witness for the amended statement at concrete inputs. -/
theorem c3_replace_witness :
    st3pre.sketch = st3pre.sketch ∧
    c3post2.sketch = some (Kc.clean (Kc.makeCompound (newFacesOf [Obj.faceO 8]))) :=
  ⟨(c3_replace_amended Kc [] st3pre st3pre rfl).1 rfl,
   (c3_replace_amended Kc [Obj.faceO 8] st3pre c3post2 rfl).2 (by decide)⟩

/-- Claim C4, counterexample: a PRIVATE merge of an edge retains nothing at
all, not even in the pending set, and a CONSTRUCTION merge of a face
discards the face, so the new entities are not retained in the pending set
as the claim states. -/
theorem c4_private_retention_counterexample :
    BuildSketch.addToContext Kc [Obj.edgeO 3] Mode.PRIVATE emptySketchState =
      Except.ok emptySketchState ∧
    emptySketchState.pending_edges = [] ∧
    BuildSketch.addToContext Kc [Obj.faceO 7] Mode.CONSTRUCTION emptySketchState =
      Except.ok emptySketchState := by
  refine ⟨rfl, rfl, rfl⟩

/-- Claim C4, amended: CONSTRUCTION and PRIVATE merges never change the
accumulated result.  A PRIVATE merge is a complete no-op; a CONSTRUCTION
merge retains exactly the edge and wire-edge arguments in the pending set,
discards face arguments, and records an empty delta.  The Build2D variant of
cq3.py likewise leaves the working surface and pending edges unchanged under
CONSTRUCTION. -/
theorem c4_construction_private_amended :
    (∀ (K : SketchKernel) (objects : List Obj) (st : SketchState),
      BuildSketch.addToContext K objects Mode.PRIVATE st = Except.ok st) ∧
    (∀ (K : SketchKernel) (objects : List Obj) (st : SketchState),
      BuildSketch.addToContext K objects Mode.CONSTRUCTION st =
        Except.ok
          ⟨st.sketch,
           st.pending_edges ++ newEdgesOf objects ++ (newWiresOf objects).flatten,
           [], [], []⟩) ∧
    (∀ (K2 : Kernel2) (face : Nat) (st : Build2DState),
      (Build2D.placeFace K2 face CqMode.CONSTRUCTION st).1.working_surface =
        st.working_surface ∧
      (Build2D.placeFace K2 face CqMode.CONSTRUCTION st).1.pending_edges =
        st.pending_edges) := by
  refine ⟨fun K objects st => rfl, ?_, fun K2 face st => ⟨rfl, rfl⟩⟩
  intro K objects st
  unfold BuildSketch.addToContext
  rw [if_neg (by decide)]
  have hm : BuildSketch.mergeStep K (newFacesOf objects) Mode.CONSTRUCTION st.sketch =
      Except.ok st.sketch := by
    unfold BuildSketch.mergeStep
    by_cases h : newFacesOf objects = []
    · rw [if_pos h]
    · rw [if_neg h]
  rw [hm]
  simp [listDiff_self]

/-- A Fillet call with an empty selection fillets nothing: every face of the
sketch passes through the loop unchanged. -/
theorem filletNewFaces_empty (FK : FilletKernel) (faces : List Nat) :
    Fillet.newFacesSketch FK [] faces = faces := by
  simp [Fillet.newFacesSketch]

/-- A Chamfer call with an empty selection chamfers nothing: every face of
the sketch passes through the loop unchanged. -/
theorem chamferNewFaces_empty (FK : FilletKernel) (faces : List Nat) :
    Chamfer.newFacesSketch FK [] faces = faces := by
  simp [Chamfer.newFacesSketch]

/-- Claim C5, counterexample: a BoundingBox call with zero explicit shapes
under a nonempty Sketch builder is a complete no-op, while operating on the
accumulated result object would have merged its bounding rectangle and
changed the state; and a Fillet or Chamfer call with an empty selection
leaves every accumulated face unfilleted, while an actual vertex selection
would have changed it.  So these operations do not operate on the
accumulated shapes when called with zero explicit inputs. -/
theorem c5_boundingbox_counterexample :
    BoundingBox.runSketch Kc BKc [] Mode.ADD st5c = Except.ok st5c ∧
    BoundingBox.runSketch Kc BKc [sketchObj st5c.sketch] Mode.ADD st5c ≠
      Except.ok st5c ∧
    Fillet.newFacesSketch FKc [] (facesOf st5c.sketch) = facesOf st5c.sketch ∧
    Fillet.newFacesSketch FKc [11] (facesOf st5c.sketch) ≠ facesOf st5c.sketch ∧
    Chamfer.newFacesSketch FKc [] (facesOf st5c.sketch) = facesOf st5c.sketch ∧
    Chamfer.newFacesSketch FKc [11] (facesOf st5c.sketch) ≠ facesOf st5c.sketch := by
  refine ⟨rfl, by decide, by decide, by decide, by decide, by decide⟩

/-- Claim C5, amended: of the generic operations, exactly Mirror, Offset,
Scale and Split default a zero-length explicit shape list to the accumulated
result object of the current builder.  Add, BoundingBox, Fillet and Chamfer
have no such defaulting: Add broadcasts and merges its empty argument list
as is, BoundingBox with zero shapes merges nothing and leaves the builder
state untouched, and Fillet and Chamfer with zero shapes select no vertices,
pass every accumulated face through unchanged, and re-merge those unchanged
faces with REPLACE. -/
theorem c5_default_objects_amended :
    ∀ (K : SketchKernel) (MK : MirrorKernel) (OK : OffsetKernel) (SCK : ScaleKernel)
      (SK : SplitKernel) (BK : BBoxKernel) (LK : LocKernel) (FK : FilletKernel)
      (keep : Keep) (mode : Mode) (locations : List Nat) (st : SketchState),
      Mirror.run K MK [] mode st = Mirror.run K MK [sketchObj st.sketch] mode st ∧
      Offset.run K OK [] mode st = Offset.run K OK [sketchObj st.sketch] mode st ∧
      Scale.run K SCK [] mode st = Scale.run K SCK [sketchObj st.sketch] mode st ∧
      Split.run K SK [] keep mode st = Split.run K SK [sketchObj st.sketch] keep mode st ∧
      BoundingBox.runSketch K BK [] mode st = Except.ok st ∧
      Add.runSketch K LK [] locations mode st = BuildSketch.addToContext K [] mode st ∧
      Fillet.runSketch K FK [] st =
        BuildSketch.addToContext K [Obj.compoundO (facesOf st.sketch) [] [] []]
          Mode.REPLACE st ∧
      Chamfer.runSketch K FK [] st =
        BuildSketch.addToContext K [Obj.compoundO (facesOf st.sketch) [] [] []]
          Mode.REPLACE st := by
  intro K MK OK SCK SK BK LK FK keep mode locations st
  refine ⟨rfl, rfl, rfl, rfl, rfl, rfl, ?_, ?_⟩
  · unfold Fillet.runSketch
    rw [filletNewFaces_empty]
  · unfold Chamfer.runSketch
    rw [chamferNewFaces_empty]

/-- Claim C6, counterexample: the mode parameters of Offset, Scale and Split
default to REPLACE, not ADD, and Fillet and Chamfer accept no mode parameter
at all. -/
theorem c6_offset_default_counterexample :
    Offset.defaultMode ≠ some Mode.ADD ∧ Scale.defaultMode ≠ some Mode.ADD ∧
    Split.defaultMode ≠ some Mode.ADD ∧ Fillet.defaultMode = none ∧
    Chamfer.defaultMode = none := by
  refine ⟨by decide, by decide, by decide, rfl, rfl⟩

/-- Claim C6, amended: every object-creation call of the sketch DSL surface
(including BuildFace and BuildHull) and the generic operations Add,
BoundingBox and Mirror default their mode parameter to ADD; Offset, Scale
and Split default it to REPLACE; Fillet and Chamfer take no mode parameter. -/
theorem c6_default_mode_amended :
    Circle.defaultMode = some Mode.ADD ∧ Ellipse.defaultMode = some Mode.ADD ∧
    Polygon.defaultMode = some Mode.ADD ∧ Rectangle.defaultMode = some Mode.ADD ∧
    RegularPolygon.defaultMode = some Mode.ADD ∧ SlotArc.defaultMode = some Mode.ADD ∧
    SlotCenterPoint.defaultMode = some Mode.ADD ∧
    SlotCenterToCenter.defaultMode = some Mode.ADD ∧
    SlotOverall.defaultMode = some Mode.ADD ∧ SketchText.defaultMode = some Mode.ADD ∧
    Trapezoid.defaultMode = some Mode.ADD ∧ BuildFace.defaultMode = some Mode.ADD ∧
    BuildHull.defaultMode = some Mode.ADD ∧ Add.defaultMode = some Mode.ADD ∧
    BoundingBox.defaultMode = some Mode.ADD ∧ Mirror.defaultMode = some Mode.ADD ∧
    Offset.defaultMode = some Mode.REPLACE ∧ Scale.defaultMode = some Mode.REPLACE ∧
    Split.defaultMode = some Mode.REPLACE ∧ Fillet.defaultMode = none ∧
    Chamfer.defaultMode = none := by
  decide

/-- Length of a location broadcast: a flat map whose every block maps the
location list. -/
theorem broadcastLength {α β : Type} (l : List α) (locs : List Nat) (g : α → Nat → β) :
    (l.flatMap fun o => locs.map (g o)).length = l.length * locs.length := by
  induction l with
  | nil => simp
  | cons a t ih =>
      simp [List.flatMap_cons, ih, Nat.succ_mul, Nat.add_comm]

/-- Claim C7: an object creation under an active location set produces
exactly one located instance per location and candidate shape: Circle
broadcasts its single candidate face across the location list and merges
each located face through its own merge call, and the Add broadcast yields
length of objects times length of locations instances. -/
theorem c7_location_broadcast :
    ∀ (K : SketchKernel) (LK : LocKernel) (objects : List Obj) (locations : List Nat)
      (baseFace : Nat) (mode : Mode) (st : SketchState),
      (Circle.newFaces LK baseFace locations).length = locations.length * 1 ∧
      (Add.newObjectsSketch LK objects locations).length =
        objects.length * locations.length ∧
      Circle.run K LK baseFace locations mode st =
        (Circle.newFaces LK baseFace locations).foldlM
          (fun s f => BuildSketch.addToContext K [Obj.faceO f] mode s) st := by
  intro K LK objects locations baseFace mode st
  refine ⟨by simp [Circle.newFaces], ?_, rfl⟩
  exact broadcastLength objects locations (fun o => LK.movedObj (LK.rotObj o))

/-- The Offset edge classification of a pure edge argument list recovers the
edges. -/
theorem classifyEdges_edgeO (es : List Nat) :
    Offset.classifyEdges (es.map Obj.edgeO) = es := by
  induction es with
  | nil => rfl
  | cons a t ih =>
      show a :: Offset.classifyEdges (t.map Obj.edgeO) = a :: t
      rw [ih]

/-- The Offset face classification of a pure edge argument list is empty. -/
theorem classifyFaces_edgeO (es : List Nat) :
    Offset.classifyFaces (es.map Obj.edgeO) = [] := by
  induction es with
  | nil => rfl
  | cons a t ih =>
      show Offset.classifyFaces (t.map Obj.edgeO) = []
      exact ih

/-- The Offset solid classification of a pure edge argument list is empty. -/
theorem classifySolids_edgeO (es : List Nat) :
    Offset.classifySolids (es.map Obj.edgeO) = [] := by
  induction es with
  | nil => rfl
  | cons a t ih =>
      show Offset.classifySolids (t.map Obj.edgeO) = []
      exact ih

/-- A pure wire argument list classifies to no faces in the sketch merge. -/
theorem newFacesOf_wireO (ws : List (List Nat)) :
    newFacesOf (ws.map Obj.wireO) = [] := by
  induction ws with
  | nil => rfl
  | cons a t ih =>
      exact ih

/-- A merge whose arguments are all wires never fails: without new faces the
boolean step is skipped entirely. -/
theorem addToContext_wires_ok (K : SketchKernel) (ws : List (List Nat)) (mode : Mode)
    (st : SketchState) :
    ∃ st2, BuildSketch.addToContext K (ws.map Obj.wireO) mode st = Except.ok st2 := by
  by_cases hm : mode = Mode.PRIVATE
  · subst hm
    exact ⟨st, rfl⟩
  · refine ⟨⟨st.sketch,
      st.pending_edges ++ newEdgesOf (ws.map Obj.wireO) ++ (newWiresOf (ws.map Obj.wireO)).flatten,
      listDiff (verticesOf st.sketch) (verticesOf st.sketch),
      listDiff (edgesOf st.sketch) (edgesOf st.sketch),
      listDiff (facesOf st.sketch) (facesOf st.sketch)⟩, ?_⟩
    have hms : BuildSketch.mergeStep K (newFacesOf (ws.map Obj.wireO)) mode st.sketch =
        Except.ok st.sketch := by
      rw [newFacesOf_wireO ws]
      unfold BuildSketch.mergeStep
      rw [if_pos rfl]
    unfold BuildSketch.addToContext
    rw [if_neg hm, hms]

/-- Offset on a nonempty pure edge list of length other than one merges the
offset of the wire assembled from those edges. -/
theorem offsetRun_edges (K : SketchKernel) (OK : OffsetKernel) (a : Nat) (t : List Nat)
    (mode : Mode) (st : SketchState) (hlen : ¬ (a :: t).length = 1) :
    Offset.run K OK ((a :: t).map Obj.edgeO) mode st =
      BuildSketch.addToContext K ((OK.offsetWires (a :: t)).map Obj.wireO) mode st := by
  have h1 : objectsUsed ((a :: t).map Obj.edgeO) st.sketch = (a :: t).map Obj.edgeO := rfl
  have h2 := classifyEdges_edgeO (a :: t)
  have h3 := classifyFaces_edgeO (a :: t)
  have h4 := classifySolids_edgeO (a :: t)
  simp only [Offset.run, h1, h2, h3, h4]
  rw [if_neg hlen]
  simp

/-- Claim C8: an Offset call whose classified edge inputs consist of exactly
one edge fails with the single-edge error before touching the builder, and
an Offset call on two or more explicit edges offsets the wire assembled from
them and merges successfully. -/
theorem c8_offset_edges :
    (∀ (K : SketchKernel) (OK : OffsetKernel) (objects : List Obj) (mode : Mode)
      (st : SketchState),
      (Offset.classifyEdges (objectsUsed objects st.sketch)).length = 1 →
      Offset.run K OK objects mode st = Except.error "At least two edges are required") ∧
    (∀ (K : SketchKernel) (OK : OffsetKernel) (es : List Nat) (mode : Mode)
      (st : SketchState),
      2 ≤ es.length →
      Offset.run K OK (es.map Obj.edgeO) mode st =
        BuildSketch.addToContext K ((OK.offsetWires es).map Obj.wireO) mode st ∧
      ∃ st2, Offset.run K OK (es.map Obj.edgeO) mode st = Except.ok st2) := by
  constructor
  · intro K OK objects mode st h
    simp only [Offset.run]
    rw [if_pos h]
  · intro K OK es mode st hes
    obtain ⟨a, t, rfl⟩ : ∃ a t, es = a :: t := by
      cases es with
      | nil => simp at hes
      | cons a t => exact ⟨a, t, rfl⟩
    have hlen : ¬ (a :: t).length = 1 := by
      simp only [List.length_cons] at hes ⊢
      omega
    have heq := offsetRun_edges K OK a t mode st hlen
    refine ⟨heq, ?_⟩
    rw [heq]
    exact addToContext_wires_ok K (OK.offsetWires (a :: t)) mode st

/-- Claim C8, witness at concrete inputs: one edge fails, two edges merge the
assembled offset wire. -/
theorem c8_offset_edges_witness :
    Offset.run Kc OKc [Obj.edgeO 0] Mode.REPLACE emptySketchState =
      Except.error "At least two edges are required" ∧
    Offset.run Kc OKc ([0, 1].map Obj.edgeO) Mode.REPLACE emptySketchState =
      BuildSketch.addToContext Kc ((OKc.offsetWires [0, 1]).map Obj.wireO)
        Mode.REPLACE emptySketchState :=
  ⟨c8_offset_edges.1 Kc OKc [Obj.edgeO 0] Mode.REPLACE emptySketchState (by decide),
   (c8_offset_edges.2 Kc OKc [0, 1] Mode.REPLACE emptySketchState (by decide)).1⟩

/-- Claim C9, counterexample: Split with keep BOTH produces one combined
output per input object, not two: one input yields a single intersection
result. -/
theorem c9_split_both_counterexample :
    (Split.newObjects SKc [Obj.solidO 0] Keep.BOTH).length = 1 ∧
    (Split.newObjects SKc [Obj.solidO 0] Keep.BOTH).length ≠ 2 := by
  refine ⟨rfl, by decide⟩

/-- Claim C9, amended: Split with keep BOTH bisects each input by the two
oversized cutter boxes aligned to the bisecting plane, keeping both halves
through a single intersection of the input with both cutters, and so yields
exactly one combined output per input object. -/
theorem c9_split_both_amended :
    ∀ (SK : SplitKernel) (objects : List Obj),
      Split.newObjects SK objects Keep.BOTH =
        objects.map (fun o =>
          SK.intersectObj o
            [Split.buildCutter SK Keep.TOP (SK.diag o),
             Split.buildCutter SK Keep.BOTTOM (SK.diag o)]) ∧
      (Split.newObjects SK objects Keep.BOTH).length = objects.length := by
  intro SK objects
  refine ⟨rfl, by simp [Split.newObjects]⟩

/-- Claim C10: whenever BuildFace or BuildHull completes successfully in a
Sketch context, the pending edge list of the builder is empty afterwards,
including when the face was built from explicitly passed edges, in which
case previously staged pending edges are discarded rather than consumed. -/
theorem c10_pending_cleared :
    ∀ (K : SketchKernel) (WK : WireKernel) (edges : List Nat) (mode : Mode)
      (st st2 : SketchState),
      (BuildFace.run K WK edges mode st = Except.ok st2 → st2.pending_edges = []) ∧
      (BuildHull.run K WK edges mode st = Except.ok st2 → st2.pending_edges = []) := by
  intro K WK edges mode st st2
  constructor
  · intro h
    simp only [BuildFace.run] at h
    split at h
    · exact absurd h (by simp)
    · split at h
      · exact absurd h (by simp)
      · injection h with h3
        subst h3
        rfl
  · intro h
    simp only [BuildHull.run] at h
    split at h
    · exact absurd h (by simp)
    · injection h with h3
      subst h3
      rfl

/-- Claim C10, witness at concrete inputs: BuildFace and BuildHull on
explicit edges 0 and 1 over a builder with a staged pending edge leave the
pending list empty. -/
theorem c10_pending_cleared_witness :
    sb10.pending_edges = [] ∧ sb10.pending_edges = [] :=
  ⟨(c10_pending_cleared Kc WKc [0, 1] Mode.ADD st10 sb10).1 rfl,
   (c10_pending_cleared Kc WKc [0, 1] Mode.ADD st10 sb10).2 rfl⟩
